import Mathlib

/-!
# Verification of the clio-mcp core against its specification

This file gives a shallow embedding, in Lean 4, of the parts of the
clio-mcp TypeScript repository that the verified claims are about:

* the resilient Clio API error/retry interceptor of the resilient Clio API client
  (`src/lib/clio-client-production.ts`),
* the session broker (`src/lib/sessions.ts`),
* caller-identity resolution of the inbound rate limiter
  (the rate-limiter module),
* the ethical conflict check engine,
* the matter intelligence brief renderer and the unbilled-activity
  audit (`src/lib/tools/matter-intelligence-brief.ts` and the audit
  module).

JavaScript values that may be `undefined`/absent are modelled as
`Option`; JavaScript truthiness on strings (only `""` is falsy among
strings) and on numbers (only `0` is falsy) is modelled explicitly.
Timestamps (`Date.now()` milliseconds) are natural numbers.  Monetary
amounts are rationals (the concrete values in the claims are small
integers, on which IEEE doubles are exact).
-/

/-! ## Generic helpers for JavaScript string semantics -/

/-- ASCII whitespace, the fragment of the JavaScript whitespace class
relevant to the inputs in the claims. -/
def asciiWhitespace (c : Char) : Bool :=
  c = ' ' || c = '\t' || c = '\n' || c = '\r' || c = '\x0b' || c = '\x0c'

/-- JavaScript `String.prototype.trim` (on the ASCII fragment):
removes leading and trailing whitespace. -/
def jsTrim (s : String) : String :=
  ⟨((s.data.dropWhile asciiWhitespace).reverse.dropWhile asciiWhitespace).reverse⟩

/-- JavaScript `String.prototype.toLowerCase` on the ASCII fragment. -/
def lowerStr (s : String) : String :=
  ⟨s.data.map Char.toLower⟩

/-- True iff the first list is a prefix of the second. -/
def listIsPrefixOf : List Char → List Char → Bool
  | [], _ => true
  | _ :: _, [] => false
  | a :: as1, b :: bs => if a = b then listIsPrefixOf as1 bs else false

/-- JavaScript `String.prototype.startsWith`. -/
def strStartsWith (s pre : String) : Bool :=
  listIsPrefixOf pre.data s.data

/-- JavaScript `String.prototype.substring(n)` (drop the first `n`
code units; our strings are ASCII so code units are characters). -/
def strDrop (s : String) (n : Nat) : String :=
  ⟨s.data.drop n⟩

/-- True iff the second list occurs contiguously in the first
(JavaScript `String.prototype.includes`). -/
def listContainsSub : List Char → List Char → Bool
  | [], pat => listIsPrefixOf pat []
  | c :: rest, pat => listIsPrefixOf pat (c :: rest) || listContainsSub rest pat

/-- JavaScript `String.prototype.includes`. -/
def containsSub (hay pat : String) : Bool :=
  listContainsSub hay.data pat.data

/-- JavaScript truthiness of a possibly-absent string: `undefined`,
`null` and `""` are falsy. -/
def optTruthy : Option String → Bool
  | some s => !s.isEmpty
  | none => false

/-- JavaScript `a || b` on possibly-absent strings: the first truthy
operand, else the second operand unchanged. -/
def jsOr2 (a b : Option String) : Option String :=
  if optTruthy a then a else b

/-- JavaScript `a || b || ... || ''` on possibly-absent strings: the
first truthy value, defaulting to the empty string. -/
def firstTruthy : List (Option String) → String
  | [] => ""
  | o :: rest => if optTruthy o then o.getD "" else firstTruthy rest

/-- JavaScript template interpolation of a possibly-absent string
(`undefined` renders as the literal text `undefined`). -/
def jsInterp : Option String → String
  | some s => s
  | none => "undefined"

/-! ## Resilient API client: error interceptor and retry loop

Embedded from `ClioClient` in `src/lib/clio-client-production.ts`.
The axios response-error interceptor (its rejection branch) decides,
for each failed attempt, whether to sleep and re-issue the request or
to surface an error.  The interaction of a call with the remote API is
modelled as a transcript: the list of outcomes the successive HTTP
attempts would observe.  A timed-out call surfaces as an axios error
with no HTTP response, i.e. a `failure` with `status = none`. -/

/-- Outcome of one HTTP attempt: a fulfilled response, or an axios
error carrying the optional HTTP status and the optional
`retry-after` header (seconds). -/
inductive RespOutcome where
  | success (v : Nat)
  | failure (status : Option Nat) (retryAfter : Option Nat)
deriving DecidableEq, Repr

/-- Errors surfaced by the client, from the rejection
paths.  `noResponse` is a model artifact marking an exhausted
transcript; well-formed transcripts are long enough that it never
arises. -/
inductive ClioClientError where
  | authFailed
  | rateLimitExceeded
  | propagated (status : Option Nat)
  | noResponse
deriving DecidableEq, Repr

/-- The `maxRetries` field of `ClioClient`. -/
def maxRetries : Nat := 3

/-- The `baseRetryDelay` field of `ClioClient` (milliseconds). -/
def baseRetryDelay : Nat := 1000

/-- The `timeout` option passed to `axios.create` in the `ClioClient`
constructor (milliseconds). -/
def clioRequestTimeoutMs : Nat := 30000

/-- From `ClioClient.calculateBackoffDelay`: exponential backoff
`baseRetryDelay * 2 ^ retryCount` milliseconds. -/
def calculateBackoffDelay (retryCount : Nat) : Nat :=
  baseRetryDelay * 2 ^ retryCount

/-- Wait time chosen on a 429: the `retry-after` header (seconds,
converted to milliseconds) when present, else the exponential
backoff. -/
def retryWaitTime (retryAfter : Option Nat) (retryCount : Nat) : Nat :=
  match retryAfter with
  | some ra => ra * 1000
  | none => calculateBackoffDelay retryCount

/-- The retry loop induced by the response-error interceptor of
`ClioClient.setupInterceptors`, run against a transcript of attempt
outcomes.  Returns the result of the call together with the list of sleep
durations (milliseconds) performed before each re-issued request:

* fulfilled response: returned as-is;
* status 401: rejected at once with an authentication error;
* status 429: sleep `retry-after` if present else backoff, re-issue
  while `retryCount < maxRetries`, else reject with the rate-limit
  error;
* status ≥ 500: sleep the backoff and re-issue while
  `retryCount < maxRetries`, else propagate the error;
* any other error (including a timeout, which has no HTTP status):
  propagated unchanged, never retried. -/
def requestWithRetries : List RespOutcome → Nat → Except ClioClientError Nat × List Nat
  | [], _ => (Except.error ClioClientError.noResponse, [])
  | RespOutcome.success v :: _, _ => (Except.ok v, [])
  | RespOutcome.failure status retryAfter :: rest, retryCount =>
    if status = some 401 then
      (Except.error ClioClientError.authFailed, [])
    else if status = some 429 then
      if retryCount < maxRetries then
        let next := requestWithRetries rest (retryCount + 1)
        (next.1, retryWaitTime retryAfter retryCount :: next.2)
      else
        (Except.error ClioClientError.rateLimitExceeded, [])
    else
      match status with
      | some s =>
        if 500 ≤ s then
          if retryCount < maxRetries then
            let next := requestWithRetries rest (retryCount + 1)
            (next.1, calculateBackoffDelay retryCount :: next.2)
          else
            (Except.error (ClioClientError.propagated (some s)), [])
        else
          (Except.error (ClioClientError.propagated (some s)), [])
      | none => (Except.error (ClioClientError.propagated none), [])

/-! ## Session broker

Embedded from `src/lib/sessions.ts`.  The in-memory `Map` session
store is modelled as an association list with `Map.get`/`Map.set`/
`Map.delete` semantics (unique keys; `set` replaces in place). -/

/-- A stored session: bound credential token, expiry and creation
timestamps (milliseconds). -/
structure SessionRecord where
  token : String
  expiresAt : Nat
  createdAt : Nat
deriving DecidableEq, Repr

/-- The in-memory session store. -/
def SessionStore : Type := List (String × SessionRecord)

/-- Lookup (`Map.get`): the record bound to a session id, if any. -/
def lookupSession : List (String × SessionRecord) → String → Option SessionRecord
  | [], _ => none
  | (k, v) :: rest, sid => if k = sid then some v else lookupSession rest sid

/-- Deletion (`Map.delete`): remove the binding of a session id. -/
def eraseSession : List (String × SessionRecord) → String → List (String × SessionRecord)
  | [], _ => []
  | (k, v) :: rest, sid => if k = sid then rest else (k, v) :: eraseSession rest sid

/-- Update (`Map.set`): rebind a session id (replace in place, else append). -/
def setSession : List (String × SessionRecord) → String → SessionRecord → List (String × SessionRecord)
  | [], sid, r => [(sid, r)]
  | (k, v) :: rest, sid, r => if k = sid then (sid, r) :: rest else (k, v) :: setSession rest sid r

/-- Thirty-day session lifetime, milliseconds (`30 * 24 * 60 * 60 * 1000`). -/
def thirtyDaysMs : Nat := 30 * 24 * 60 * 60 * 1000

/-- Sliding-refresh threshold, milliseconds (`7 * 24 * 60 * 60 * 1000`). -/
def refreshThresholdMs : Nat := 7 * 24 * 60 * 60 * 1000

/-- From `getSessionToken` in `src/lib/sessions.ts`, with the mutable
store and the current clock passed explicitly.  Returns the resolved
token (if any) and the store after the call: a missing id leaves the
store unchanged; an expired entry is deleted and `none` returned;
otherwise, when `autoRefresh` is on and the remaining time to live is
below the 7-day threshold, `expiresAt` is extended to now + 30 days,
and the bound token is returned. -/
def getSessionToken (store : List (String × SessionRecord)) (sessionId : String)
    (now : Nat) (autoRefresh : Bool := true) :
    Option String × List (String × SessionRecord) :=
  match lookupSession store sessionId with
  | none => (none, store)
  | some session =>
    if session.expiresAt < now then
      (none, eraseSession store sessionId)
    else if autoRefresh && decide (session.expiresAt - now < refreshThresholdMs) then
      (some session.token,
        setSession store sessionId { session with expiresAt := now + thirtyDaysMs })
    else
      (some session.token, store)

/-- From `getSession` in `src/lib/sessions.ts`: `sessionStore.get(id) || null`.
It performs no expiry check, no refresh and no deletion (it takes no
clock and returns no modified store). -/
def getSession (store : List (String × SessionRecord)) (sessionId : String) :
    Option SessionRecord :=
  lookupSession store sessionId

/-! ## Inbound rate limiter: caller identity resolution

Embedded from `getRequestIdentifier` in the rate-limiter module.  An
inbound request is modelled by the pieces of it that the function (or
the spec) consults: the `sessionId` query parameter, the
`Authorization` header, the dedicated `X-MCP-Session-ID` header, and
the `x-forwarded-for` / `x-real-ip` headers. -/

/-- The inbound request, as seen by the rate limiter. -/
structure InboundRequest where
  sessionIdParam : Option String
  authorizationHeader : Option String
  xMcpSessionIdHeader : Option String
  xForwardedForHeader : Option String
  xRealIpHeader : Option String
deriving Repr

/-- The characters before the first comma (the JavaScript expression
splitting the forwarded-for header and taking its first entry). -/
def beforeFirstComma (s : String) : String :=
  ⟨s.data.takeWhile (fun c => !(c = ','))⟩

/-- From `getRequestIdentifier` in the rate-limiter module: session id
from the query parameter, else from an `Authorization: Bearer
session:<id>` header, else the source IP (first `x-forwarded-for`
entry, else `x-real-ip`, else `"unknown"`).  The function never reads
the `X-MCP-Session-ID` header. -/
def getRequestIdentifier (req : InboundRequest) : String :=
  if optTruthy req.sessionIdParam then
    "session:" ++ req.sessionIdParam.getD ""
  else if optTruthy req.authorizationHeader
      && strStartsWith (req.authorizationHeader.getD "") "Bearer session:" then
    "session:" ++ strDrop (req.authorizationHeader.getD "") 15
  else
    "ip:" ++
      (if optTruthy req.xForwardedForHeader then
        jsTrim (beforeFirstComma (req.xForwardedForHeader.getD ""))
      else if optTruthy req.xRealIpHeader then
        req.xRealIpHeader.getD ""
      else "unknown")


/-! ## Unbilled Activity Audit: vagueness classifier

Embedded from `isVagueDescription` / `getVagueReason` in the audit
module.  The fixed case-insensitive regular expressions are anchored
(`^...\s*$`) and are tested against the trimmed description, so each
amounts to membership of the lowercased trimmed description in a
fixed set of words, plus the `follow.?up` wildcard and the
single-letter / digits-only / punctuation-only classes. -/

/-- JavaScript word character (`\w`): ASCII letter, digit or underscore. -/
def jsWordChar (c : Char) : Bool :=
  c.isAlpha || c.isDigit || c = '_'

/-- The fixed low-information words of the first four vague patterns
(each regex alternative that is a literal), lowercased. -/
def vagueWords : List String :=
  ["meeting", "call", "email", "phone", "review", "work", "task", "draft",
   "research", "prep", "preparation", "followup",
   "mtg", "mtng", "tel", "telcon", "eml", "em", "rev", "wk", "tsk", "drft",
   "rsch", "f/u", "f/up",
   "see", "see above", "same", "as above", "as noted", "per", "per above",
   "misc", "miscellaneous", "other", "various", "general",
   "miscellaneous work", "general work", "other tasks"]

/-- The `follow.?up` alternative: `follow` then at most one character
(any character but a line terminator) then `up`, spanning the whole
(lowercased) string. -/
def isFollowUpPattern : List Char → Bool
  | 'f' :: 'o' :: 'l' :: 'l' :: 'o' :: 'w' :: 'u' :: 'p' :: [] => true
  | 'f' :: 'o' :: 'l' :: 'l' :: 'o' :: 'w' :: c :: 'u' :: 'p' :: [] =>
    !(c = '\n') && !(c = '\r')
  | _ => false

/-- Whether the trimmed description matches one of the fixed
case-insensitive vague patterns of `isVagueDescription`. -/
def matchesVaguePattern (trimmed : String) : Bool :=
  let low := lowerStr trimmed
  vagueWords.contains low
  || isFollowUpPattern low.data
  || (match low.data with
      | [c] => 'a' ≤ c && c ≤ 'z'
      | _ => false)
  || (!low.data.isEmpty && low.data.all Char.isDigit)
  || (!low.data.isEmpty && low.data.all (fun c => !jsWordChar c && !asciiWhitespace c))

/-- From `isVagueDescription`: vague iff empty/blank, or trimmed length
under 15 characters, or matching a fixed low-information pattern. -/
def isVagueDescription (description : String) : Bool :=
  if description = "" || (jsTrim description).length = 0 then true
  else if (jsTrim description).length < 15 then true
  else matchesVaguePattern (jsTrim description)

/-- From `getVagueReason`: the human-readable flag reason attached to a
vague description. -/
def getVagueReason (description : String) : String :=
  if description = "" || (jsTrim description).length = 0 then
    "Empty description"
  else if (jsTrim description).length < 15 then
    "Too short (" ++ toString (jsTrim description).length
      ++ " characters). Insurance typically requires at least 15 characters."
  else
    "Matches vague description pattern (e.g., \"meeting\", \"call\", \"review\" without context)"

/-! ## Unbilled Activity Audit: amounts and totals

Embedded from `auditUnbilledActivities` in the audit module.  The
fetch layer (activities endpoint with time-entries fallback) is
outside this claim set; the audit core takes the fetched activity
list.  After the processing loop the source sorts the per-activity
records by parsed date, descending, and renders a text report; the
sort permutes only the `activities` field and the rendering consumes
the result, so neither affects the totals proved about here. -/

/-- A fetched activity, with its loosely-shaped optional fields. -/
structure ClioActivity where
  id : String
  description : Option String
  note : Option String
  subject : Option String
  date : Option String
  created_at : Option String
  time_spent : Option ℚ
  rate : Option ℚ
  billable_amount : Option ℚ
deriving DecidableEq, Repr

/-- JavaScript truthiness of a possibly-absent number: `undefined`
and `0` are falsy. -/
def qTruthy : Option ℚ → Bool
  | some x => decide (x ≠ 0)
  | none => false

/-- Per-activity billable amount, from the expression
`activity.billable_amount || (activity.time_spent && activity.rate ?
activity.time_spent * activity.rate : 0) || 0`: the provided amount
when truthy (present and nonzero), else time × rate when both are
truthy, else zero. -/
def billableAmountOf (a : ClioActivity) : ℚ :=
  if qTruthy a.billable_amount then a.billable_amount.getD 0
  else if qTruthy a.time_spent && qTruthy a.rate then
    a.time_spent.getD 0 * a.rate.getD 0
  else 0

/-- The description used by the audit:
`activity.description || activity.note || activity.subject || ''`. -/
def activityDescription (a : ClioActivity) : String :=
  firstTruthy [a.description, a.note, a.subject]

/-- One audited activity record, as pushed by the processing loop. -/
structure AuditedActivity where
  id : String
  description : String
  date : String
  time_spent : Option ℚ
  rate : Option ℚ
  billable_amount : ℚ
  vague_description_flag : Bool
  vague_reason : Option String
deriving DecidableEq, Repr

/-- The audit result record. -/
structure AuditResult where
  matter_id : String
  total_unbilled_activities : Nat
  total_billable_amount : ℚ
  vague_descriptions_count : Nat
  activities : List AuditedActivity
deriving DecidableEq, Repr

/-- The audited record built for one activity inside the loop. -/
def processActivity (a : ClioActivity) : AuditedActivity :=
  let description := activityDescription a
  let isVague := isVagueDescription description
  { id := a.id
    description := description
    date := firstTruthy [a.date, a.created_at]
    time_spent := a.time_spent
    rate := a.rate
    billable_amount := billableAmountOf a
    vague_description_flag := isVague
    vague_reason := if isVague then some (getVagueReason description) else none }

/-- One iteration of the `for (const activity of activities)` loop:
bump the vague count when flagged, add the billable amount to the
total, push the audited record. -/
def auditStep (acc : AuditResult) (a : ClioActivity) : AuditResult :=
  { acc with
    vague_descriptions_count :=
      acc.vague_descriptions_count
        + (if isVagueDescription (activityDescription a) then 1 else 0)
    total_billable_amount := acc.total_billable_amount + billableAmountOf a
    activities := acc.activities ++ [processActivity a] }

/-- The audit core of `auditUnbilledActivities`: the initial result
record followed by the processing loop over the fetched activities
(the subsequent by-date sort of `activities` is not modelled; it does
not touch the totals). -/
def auditUnbilledActivitiesCore (matterId : String) (activities : List ClioActivity) :
    AuditResult :=
  activities.foldl auditStep
    { matter_id := matterId
      total_unbilled_activities := activities.length
      total_billable_amount := 0
      vague_descriptions_count := 0
      activities := [] }

/-! ## Matter Intelligence Brief: markdown renderer

Embedded from `formatIntelligenceBriefAsMarkdown` and the
`MatterIntelligenceBriefResult` interface in
`src/lib/tools/matter-intelligence-brief.ts`.  The renderer is split
here into one definition per sequential block of the source function
(header, then the three sections), concatenated in the order of
the source. -/

/-- A rendered line or segment guarded by JavaScript truthiness
(`if (x) markdown += ...`): emitted only for a present, non-empty
string. -/
def jsOptSeg (o : Option String) (render : String → String) : String :=
  match o with
  | some s => if s = "" then "" else render s
  | none => ""

/-- One `recent_activity` entry: a normalized file note. -/
structure RecentActivityEntry where
  id : String
  note : String
  created_at : String
  created_by : Option String
deriving DecidableEq, Repr

/-- One `pending_tasks` entry: a normalized calendar entry. -/
structure PendingTask where
  id : String
  subject : String
  due_date : Option String
  assigned_to : Option String
deriving DecidableEq, Repr

/-- One `case_metadata.related_contacts` entry. -/
structure RelatedContactEntry where
  id : String
  name : String
  role : Option String
deriving DecidableEq, Repr

/-- The `case_metadata` record: the non-empty custom fields (a name → value
record, modelled as its entry list in insertion order) and the
related contacts. -/
structure CaseMetadata where
  custom_fields : List (String × String)
  related_contacts : List RelatedContactEntry
deriving DecidableEq, Repr

/-- The `matter` part of the brief result. -/
structure BriefMatterInfo where
  id : String
  display_number : String
  description : Option String
  status : Option String
  practice_area : Option String
deriving DecidableEq, Repr

/-- The `MatterIntelligenceBriefResult` record. -/
structure MatterIntelligenceBriefResult where
  matter : BriefMatterInfo
  recent_activity : List RecentActivityEntry
  pending_tasks : List PendingTask
  case_metadata : CaseMetadata
deriving DecidableEq, Repr

/-- The title/header block of the brief (everything before the
`## Recent Activity` heading). -/
def briefHeader (m : BriefMatterInfo) : String :=
  "# Matter Intelligence Brief\n\n"
  ++ "**Matter:** " ++ m.display_number ++ "\n"
  ++ jsOptSeg m.description (fun d => "**Description:** " ++ d ++ "\n")
  ++ jsOptSeg m.status (fun s => "**Status:** " ++ s ++ "\n")
  ++ jsOptSeg m.practice_area (fun p => "**Practice Area:** " ++ p ++ "\n")
  ++ "\n---\n\n"

/-- The `## Recent Activity` section: a placeholder when the list is
empty, else one block per file note. -/
def recentActivitySection (acts : List RecentActivityEntry) : String :=
  "## Recent Activity\n\n"
  ++ (if acts.isEmpty then "*No recent file notes found.*\n\n"
      else String.join (acts.map fun a =>
        "### " ++ a.created_at ++ "\n"
        ++ jsOptSeg a.created_by (fun b => "*By: " ++ b ++ "*\n")
        ++ a.note ++ "\n\n"))

/-- The `## Pending Tasks` section: a placeholder when the list is
empty, else one bullet per task followed by a blank line. -/
def pendingTasksSection (tasks : List PendingTask) : String :=
  "## Pending Tasks\n\n"
  ++ (if tasks.isEmpty then "*No upcoming calendar entries found.*\n\n"
      else String.join (tasks.map fun t =>
        "- **" ++ t.subject ++ "**"
        ++ jsOptSeg t.due_date (fun d => " (Due: " ++ d ++ ")")
        ++ jsOptSeg t.assigned_to (fun a => " - Assigned to: " ++ a)
        ++ "\n") ++ "\n")

/-- The `## Case Metadata` section: the header, then a Custom Fields
subsection only when there are custom fields, then a Related Contacts
subsection only when there are related contacts — and nothing at all
under the header when both are empty. -/
def caseMetadataSection (meta : CaseMetadata) : String :=
  "## Case Metadata\n\n"
  ++ (if meta.custom_fields.isEmpty then ""
      else "### Custom Fields\n\n"
        ++ String.join (meta.custom_fields.map fun kv =>
            "- **" ++ kv.1 ++ ":** " ++ kv.2 ++ "\n") ++ "\n")
  ++ (if meta.related_contacts.isEmpty then ""
      else "### Related Contacts\n\n"
        ++ String.join (meta.related_contacts.map fun c =>
            "- **" ++ c.name ++ "**"
            ++ jsOptSeg c.role (fun r => " (" ++ r ++ ")")
            ++ "\n") ++ "\n")

/-- From `formatIntelligenceBriefAsMarkdown`: the full rendered brief. -/
def formatIntelligenceBriefAsMarkdown (r : MatterIntelligenceBriefResult) : String :=
  briefHeader r.matter
  ++ recentActivitySection r.recent_activity
  ++ pendingTasksSection r.pending_tasks
  ++ caseMetadataSection r.case_metadata

/-- A brief result whose three sections are all empty, used to
exercise the renderer. -/
def emptyBriefResult : MatterIntelligenceBriefResult :=
  { matter :=
      { id := "12346", display_number := "2024-002"
        description := none, status := none, practice_area := none }
    recent_activity := []
    pending_tasks := []
    case_metadata := { custom_fields := [], related_contacts := [] } }

/-! ## Ethical Conflict Check

Embedded from `performEthicalConflictCheck` in the conflict-check
module.  The remote interactions are passed in explicitly: the two
initial searches as `Except` values (the `Promise.all` pair), the
optional full matter listing as an `Except` value (its failure is
tolerated), and the per-matter detail fetch as a function into
`Except` (each failure is tolerated and contributes nothing).  The
report is the structured result record (the source serializes it to
JSON verbatim). -/

/-- A contact search hit. -/
structure ClioContact where
  id : String
  name : Option String
  first_name : Option String
  last_name : Option String
  email : Option String
  phone : Option String
  company : Option String
deriving DecidableEq, Repr

/-- A matter search/listing hit. -/
structure ClioMatter where
  id : String
  display_number : Option String
  number : Option String
  description : Option String
  status : Option String
  practice_area : Option String
  closed_date : Option String
  updated_at : Option String
deriving DecidableEq, Repr

/-- The nested `contact` object of a contact relation on a matter. -/
structure RelContactInfo where
  name : Option String
  first_name : Option String
  last_name : Option String
deriving DecidableEq, Repr

/-- One entry of the `contacts` relation list of a matter detail. -/
structure MatterContactRel where
  id : Option String
  contact_id : Option String
  name : Option String
  contact : Option RelContactInfo
  role : Option String
  relationship_type : Option String
deriving DecidableEq, Repr

/-- One entry of the `custom_fields` list of a matter detail. -/
structure MatterCustomField where
  name : Option String
  id : Option String
  value : Option String
deriving DecidableEq, Repr

/-- A fetched matter detail (absent relation lists behave like empty
ones: the source only iterates them when present). -/
structure MatterDetail where
  contacts : List MatterContactRel
  custom_fields : List MatterCustomField
deriving DecidableEq, Repr

/-- A direct match of the conflict check (`type` is `"contact"` or
`"matter"`); `details` keeps the copied raw fields. -/
structure DirectMatch where
  type : String
  id : String
  name : String
  details : List (String × Option String)
deriving DecidableEq, Repr

/-- A related-party match, annotated with its source matter. -/
structure RelatedPartyMatch where
  type : String
  id : Option String
  name : String
  relationship : String
  source_matter_id : Option String
  source_matter_number : Option String
deriving DecidableEq, Repr

/-- A closed-matter history record. -/
structure ClosedMatterRecord where
  matter_id : String
  matter_number : String
  status : Option String
  closed_date : Option String
deriving DecidableEq, Repr

/-- The `ConflictCheckResult` record: the four result collections. -/
structure ConflictCheckResult where
  search_query : String
  direct_matches : List DirectMatch
  related_party_matches : List RelatedPartyMatch
  closed_matter_history : List ClosedMatterRecord
deriving DecidableEq, Repr

/-- Display name of a contact hit: the `name` field when truthy,
else the trimmed space-joined first and last names, absent parts
rendered empty. -/
def contactDisplayName (c : ClioContact) : String :=
  if optTruthy c.name then c.name.getD ""
  else jsTrim (c.first_name.getD "" ++ " " ++ c.last_name.getD "")

/-- Display name of a matter contact relation:
`contactRel.name || contactRel.contact?.name || trim(...)`. -/
def relContactName (rel : MatterContactRel) : String :=
  if optTruthy rel.name then rel.name.getD ""
  else if optTruthy (rel.contact.bind RelContactInfo.name) then
    (rel.contact.bind RelContactInfo.name).getD ""
  else
    jsTrim ((rel.contact.bind RelContactInfo.first_name).getD ""
      ++ " " ++ (rel.contact.bind RelContactInfo.last_name).getD "")

/-- The related-party matches contributed by one candidate, from its
detail: each related contact whose name contains the query
(case-insensitively), then each custom field whose value contains the
query, each annotated with the source matter id/number. -/
def matterRelatedPartyMatches (searchQuery : String) (m : ClioMatter)
    (detail : MatterDetail) : List RelatedPartyMatch :=
  (detail.contacts.filterMap fun rel =>
    let contactName := relContactName rel
    if containsSub (lowerStr contactName) (lowerStr searchQuery) then
      some { type := "contact"
             id := jsOr2 rel.id rel.contact_id
             name := contactName
             relationship := firstTruthy [rel.role, rel.relationship_type, some "Related Contact"]
             source_matter_id := some m.id
             source_matter_number := jsOr2 m.display_number m.number }
    else none)
  ++ (detail.custom_fields.filterMap fun f =>
    let fieldValue := lowerStr (f.value.getD "")
    if containsSub fieldValue (lowerStr searchQuery) then
      some { type := "matter"
             id := some m.id
             name := firstTruthy [m.display_number, m.number]
             relationship :=
               firstTruthy [f.name, f.id, some "Custom Field"] ++ ": " ++ jsInterp f.value
             source_matter_id := some m.id
             source_matter_number := jsOr2 m.display_number m.number }
    else none)

/-- From `performEthicalConflictCheck`.  The initial `Promise.all` pair of
searches is all-or-nothing: either failure aborts the whole check
with that error.  On success: every contact and matter hit becomes a
direct match; matters with status `"Closed"` or a truthy closed date
are recorded as closed-matter history; the candidate set for the
related-party scan is the matter hits, extended (deduplicated by id)
with a full listing when the search returned fewer than 100 hits and
the listing succeeded; the details of the first 20 candidates are scanned,
each failed detail fetch contributing nothing. -/
def performEthicalConflictCheck (searchQuery : String)
    (contactsRes : Except String (List ClioContact))
    (mattersRes : Except String (List ClioMatter))
    (allMattersRes : Except String (List ClioMatter))
    (matterDetails : String → Except String MatterDetail) :
    Except String ConflictCheckResult :=
  match contactsRes, mattersRes with
  | Except.error e, _ => Except.error e
  | Except.ok _, Except.error e => Except.error e
  | Except.ok contacts, Except.ok matters =>
    let directContactMatches : List DirectMatch := contacts.map fun c =>
      { type := "contact", id := c.id, name := contactDisplayName c
        details := [("email", c.email), ("phone", c.phone), ("company", c.company)] }
    let directMatterMatches : List DirectMatch := matters.map fun m =>
      { type := "matter", id := m.id
        name := firstTruthy [m.display_number, m.number, m.description]
        details := [("description", m.description), ("status", m.status),
                    ("practice_area", m.practice_area)] }
    let closedHistory : List ClosedMatterRecord := matters.filterMap fun m =>
      if m.status = some "Closed" || optTruthy m.closed_date then
        some { matter_id := m.id
               matter_number := firstTruthy [m.display_number, m.number]
               status := m.status
               closed_date := jsOr2 m.closed_date m.updated_at }
      else none
    let allMattersForCheck : List ClioMatter :=
      if matters.length < 100 then
        match allMattersRes with
        | Except.ok allMatters =>
          matters ++ allMatters.filter (fun m => !((matters.map ClioMatter.id).contains m.id))
        | Except.error _ => matters
      else matters
    let relatedParty : List RelatedPartyMatch :=
      ((allMattersForCheck.take 20).map fun m =>
        match matterDetails m.id with
        | Except.ok detail => matterRelatedPartyMatches searchQuery m detail
        | Except.error _ => []).flatten
    Except.ok
      { search_query := searchQuery
        direct_matches := directContactMatches ++ directMatterMatches
        related_party_matches := relatedParty
        closed_matter_history := closedHistory }


/-- An activity whose provided `billable_amount` is exactly 0 while
time spent and rate are both present and nonzero. -/
def zeroAmountActivity : ClioActivity :=
  { id := "a1", description := none, note := none, subject := none,
    date := none, created_at := none,
    time_spent := some 2, rate := some 100, billable_amount := some 0 }

/-- Five activities with provided billable amounts
875, 500, 375, 1000, 125. -/
def demoActivities : List ClioActivity :=
  [{ id := "a1", description := none, note := none, subject := none,
     date := none, created_at := none,
     time_spent := none, rate := none, billable_amount := some 875 },
   { id := "a2", description := none, note := none, subject := none,
     date := none, created_at := none,
     time_spent := none, rate := none, billable_amount := some 500 },
   { id := "a3", description := none, note := none, subject := none,
     date := none, created_at := none,
     time_spent := none, rate := none, billable_amount := some 375 },
   { id := "a4", description := none, note := none, subject := none,
     date := none, created_at := none,
     time_spent := none, rate := none, billable_amount := some 1000 },
   { id := "a5", description := none, note := none, subject := none,
     date := none, created_at := none,
     time_spent := none, rate := none, billable_amount := some 125 }]

/-! ## Helper lemmas -/

theorem requestWithRetries_delays_le (rs : List RespOutcome) (rc : Nat) :
    (requestWithRetries rs rc).2.length ≤ maxRetries - rc := by
  induction rs generalizing rc with
  | nil => simp [requestWithRetries]
  | cons r rest ih =>
    cases r with
    | success v => simp [requestWithRetries]
    | failure status retryAfter =>
      simp only [requestWithRetries]
      by_cases h401 : status = some 401
      · simp [h401]
      · rw [if_neg h401]
        by_cases h429 : status = some 429
        · rw [if_pos h429]
          by_cases hrc : rc < maxRetries
          · rw [if_pos hrc]
            have := ih (rc + 1)
            simp only [List.length_cons]
            omega
          · rw [if_neg hrc]
            simp
        · rw [if_neg h429]
          cases status with
          | none => simp
          | some s =>
            dsimp only
            by_cases h5 : 500 ≤ s
            · rw [if_pos h5]
              by_cases hrc : rc < maxRetries
              · rw [if_pos hrc]
                have := ih (rc + 1)
                simp only [List.length_cons]
                omega
              · rw [if_neg hrc]
                simp
            · rw [if_neg h5]
              simp

/-! ## Claim theorems: resilient client -/

/-- C1: on HTTP 429 the client waits the `retry-after` header when
present, else `baseRetryDelay * 2 ^ attempt` (base 1 second), and
re-issues the request; it performs at most `maxRetries = 3` retries,
and when a 429 arrives with the retry budget exhausted it fails with
the rate-limit-exceeded error.  In particular a transcript
429, 429, 200 yields the 200 result after the two backoff delays of
1s and 2s; a 429 carrying `retry-after: 7` is retried after 7s; four
consecutive 429s exhaust the budget after delays 1s, 2s, 4s; and no
transcript ever causes more than 3 retry delays. -/
theorem clioClient_429_retry_policy :
    requestWithRetries
        [RespOutcome.failure (some 429) none, RespOutcome.failure (some 429) none,
         RespOutcome.success 200] 0
      = (Except.ok 200, [1000, 2000]) ∧
    requestWithRetries [RespOutcome.failure (some 429) (some 7), RespOutcome.success 200] 0
      = (Except.ok 200, [7000]) ∧
    requestWithRetries (List.replicate 4 (RespOutcome.failure (some 429) none)) 0
      = (Except.error ClioClientError.rateLimitExceeded, [1000, 2000, 4000]) ∧
    (∀ n, calculateBackoffDelay n = 1000 * 2 ^ n) ∧
    (∀ transcript, ((requestWithRetries transcript 0).2).length ≤ maxRetries) := by
  refine ⟨rfl, rfl, rfl, fun n => rfl, fun transcript => ?_⟩
  simpa using requestWithRetries_delays_le transcript 0

/-- C2 counterexample: a timed-out call (an axios error with no HTTP
response status) is NOT retried — it is propagated at once with no
delay — while a 503 in the same position is retried with the 1s
backoff and succeeds.  This refutes the claim that a timeout is
eligible for the same retry policy as a 5xx. -/
theorem clioClient_timeout_not_retried_cx :
    requestWithRetries [RespOutcome.failure none none, RespOutcome.success 7] 0
      = (Except.error (ClioClientError.propagated none), []) ∧
    requestWithRetries [RespOutcome.failure (some 503) none, RespOutcome.success 7] 0
      = (Except.ok 7, [1000]) :=
  ⟨rfl, rfl⟩

/-- C2 (amended): every call is configured with the fixed 30-second
per-call timeout, but a timed-out call is not retried: the error
interceptor only retries errors whose response carries status 429 or
≥ 500, and a timeout has no response status, so it is propagated
unchanged with no backoff delay, at every retry count. -/
theorem clioClient_timeout_policy :
    clioRequestTimeoutMs = 30000 ∧
    (∀ rest rc ra, requestWithRetries (RespOutcome.failure none ra :: rest) rc
      = (Except.error (ClioClientError.propagated none), [])) :=
  ⟨rfl, fun _ _ _ => rfl⟩

theorem lookupSession_setSession_self (store : List (String × SessionRecord))
    (sid : String) (r : SessionRecord) :
    lookupSession (setSession store sid r) sid = some r := by
  induction store with
  | nil => simp [setSession, lookupSession]
  | cons kv rest ih =>
    obtain ⟨k, v⟩ := kv
    by_cases hk : k = sid
    · simp [setSession, lookupSession, hk]
    · simp [setSession, lookupSession, hk, ih]

/-! ## Claim theorems: session broker -/

/-- C3: resolving a stored, non-expired session with `autoRefresh`
returns its bound credential token; when the remaining time to live
is strictly below the 7-day threshold the stored `expiresAt` becomes
now + 30 days, and when it is at least 7 days the store is left
completely unchanged. -/
theorem getSessionToken_sliding_refresh (store : List (String × SessionRecord))
    (sid : String) (now : Nat) (s : SessionRecord)
    (hfind : lookupSession store sid = some s) (hlive : ¬ s.expiresAt < now) :
    (getSessionToken store sid now true).1 = some s.token ∧
    (s.expiresAt - now < refreshThresholdMs →
      lookupSession (getSessionToken store sid now true).2 sid
        = some { s with expiresAt := now + thirtyDaysMs }) ∧
    (refreshThresholdMs ≤ s.expiresAt - now →
      (getSessionToken store sid now true).2 = store) := by
  refine ⟨?_, ?_, ?_⟩
  · rw [getSessionToken, hfind]
    by_cases hr : s.expiresAt - now < refreshThresholdMs
    · simp [hlive, hr]
    · simp [hlive, hr]
  · intro hr
    rw [getSessionToken, hfind]
    simp [hlive, hr, lookupSession_setSession_self]
  · intro hr
    rw [getSessionToken, hfind]
    have hr2 : ¬ s.expiresAt - now < refreshThresholdMs := by omega
    simp [hlive, hr2]

/-- C3 witness: a store holding one session that is 50 ms from
expiry resolves to its token and is re-bound to expire 30 days from
now. -/
theorem getSessionToken_sliding_refresh_witness :
    (getSessionToken [("s1", ⟨"tok", 100, 0⟩)] "s1" 50 true).1 = some "tok" ∧
    lookupSession (getSessionToken [("s1", ⟨"tok", 100, 0⟩)] "s1" 50 true).2 "s1"
      = some ⟨"tok", 50 + thirtyDaysMs, 0⟩ :=
  ⟨(getSessionToken_sliding_refresh [("s1", ⟨"tok", 100, 0⟩)] "s1" 50 ⟨"tok", 100, 0⟩
      (by decide) (by decide)).1,
   (getSessionToken_sliding_refresh [("s1", ⟨"tok", 100, 0⟩)] "s1" 50 ⟨"tok", 100, 0⟩
      (by decide) (by decide)).2.1 (by decide)⟩

/-- C10: for a stored but already-expired session, `getSession` still
returns the full stored record (including the bound credential
token); `getSessionToken` on the same id instead returns no token and
deletes the entry from the store.  `getSession` takes no clock and
returns no updated store, so it can neither reject nor remove the
expired entry. -/
theorem getSession_returns_expired_record (store : List (String × SessionRecord))
    (sid : String) (now : Nat) (s : SessionRecord)
    (hfind : lookupSession store sid = some s) (hexp : s.expiresAt < now) :
    getSession store sid = some s ∧
    (getSession store sid).map SessionRecord.token = some s.token ∧
    (getSessionToken store sid now true).1 = none ∧
    (getSessionToken store sid now true).2 = eraseSession store sid := by
  refine ⟨hfind, by rw [getSession, hfind]; rfl, ?_, ?_⟩
  · rw [getSessionToken, hfind]
    simp [hexp]
  · rw [getSessionToken, hfind]
    simp [hexp]

/-- C10 witness: an entry expired at t=10 is still fully readable
through `getSession` at t=99, while `getSessionToken` rejects and
deletes it. -/
theorem getSession_returns_expired_record_witness :
    getSession [("s1", ⟨"tok", 10, 0⟩)] "s1" = some ⟨"tok", 10, 0⟩ ∧
    (getSessionToken [("s1", ⟨"tok", 10, 0⟩)] "s1" 99 true).1 = none ∧
    (getSessionToken [("s1", ⟨"tok", 10, 0⟩)] "s1" 99 true).2
      = eraseSession [("s1", ⟨"tok", 10, 0⟩)] "s1" :=
  ⟨(getSession_returns_expired_record [("s1", ⟨"tok", 10, 0⟩)] "s1" 99 ⟨"tok", 10, 0⟩
      (by decide) (by decide)).1,
   (getSession_returns_expired_record [("s1", ⟨"tok", 10, 0⟩)] "s1" 99 ⟨"tok", 10, 0⟩
      (by decide) (by decide)).2.2.1,
   (getSession_returns_expired_record [("s1", ⟨"tok", 10, 0⟩)] "s1" 99 ⟨"tok", 10, 0⟩
      (by decide) (by decide)).2.2.2⟩

theorem optTruthy_some_of_ne (s : String) (h : s ≠ "") : optTruthy (some s) = true := by
  cases hemp : s.isEmpty with
  | true => exact absurd ((String.isEmpty_iff s).mp hemp) h
  | false => simp [optTruthy, hemp]

theorem ne_empty_of_bearer_session (a : String)
    (h : strStartsWith a "Bearer session:" = true) : a ≠ "" := by
  intro he
  subst he
  exact absurd h (by decide)

/-! ## Claim theorems: inbound rate limiter identity -/

/-- C5 counterexample: a request whose only session identifier is the
dedicated `X-MCP-Session-ID` header is counted under its source IP,
not under that session: the `getRequestIdentifier` of the rate limiter
never reads the dedicated header. -/
theorem getRequestIdentifier_ignores_mcp_header_cx :
    getRequestIdentifier
        { sessionIdParam := none, authorizationHeader := none,
          xMcpSessionIdHeader := some "abc123",
          xForwardedForHeader := some "10.0.0.5", xRealIpHeader := none }
      = "ip:10.0.0.5" ∧
    ("ip:10.0.0.5" : String) ≠ "session:abc123" :=
  ⟨by decide, by decide⟩

/-- C5 (amended): the rate limiter resolves the caller identity by
trying, in order, the explicit `sessionId` query parameter, then an
authorization header of the form `Bearer session:<id>`, and finally
the source IP address (first `x-forwarded-for` entry, trimmed, else
`x-real-ip`, else `"unknown"`).  The dedicated `X-MCP-Session-ID`
header is never consulted: the resolved identity is invariant under
any change to it. -/
theorem getRequestIdentifier_resolution_order :
    (∀ req v, getRequestIdentifier { req with xMcpSessionIdHeader := v }
      = getRequestIdentifier req) ∧
    (∀ req sid, req.sessionIdParam = some sid → sid ≠ "" →
      getRequestIdentifier req = "session:" ++ sid) ∧
    (∀ req a, optTruthy req.sessionIdParam = false →
      req.authorizationHeader = some a → strStartsWith a "Bearer session:" = true →
      getRequestIdentifier req = "session:" ++ strDrop a 15) ∧
    (∀ req ff, req.sessionIdParam = none → req.authorizationHeader = none →
      req.xForwardedForHeader = some ff → ff ≠ "" →
      getRequestIdentifier req = "ip:" ++ jsTrim (beforeFirstComma ff)) := by
  refine ⟨?_, ?_, ?_, ?_⟩
  · intro req v
    cases req
    rfl
  · intro req sid hparam hne
    rw [getRequestIdentifier, hparam]
    rw [if_pos (optTruthy_some_of_ne sid hne)]
    rfl
  · intro req a hparam hauth hbearer
    rw [getRequestIdentifier, hauth]
    rw [if_neg (by simp [hparam])]
    rw [if_pos (by simp [optTruthy_some_of_ne a (ne_empty_of_bearer_session a hbearer), hbearer])]
    rfl
  · intro req ff hparam hauth hff hne
    rw [getRequestIdentifier, hparam, hauth, hff]
    rw [if_neg (by simp [optTruthy])]
    rw [if_neg (by simp [optTruthy])]
    rw [if_pos (optTruthy_some_of_ne ff hne)]
    rfl

/-- C5 witness: the three resolution steps exercised on concrete
requests. -/
theorem getRequestIdentifier_resolution_order_witness :
    getRequestIdentifier
        { sessionIdParam := some "abc", authorizationHeader := none,
          xMcpSessionIdHeader := none, xForwardedForHeader := none,
          xRealIpHeader := none } = "session:" ++ "abc" ∧
    getRequestIdentifier
        { sessionIdParam := none, authorizationHeader := some "Bearer session:xyz",
          xMcpSessionIdHeader := none, xForwardedForHeader := none,
          xRealIpHeader := none } = "session:" ++ strDrop "Bearer session:xyz" 15 ∧
    getRequestIdentifier
        { sessionIdParam := none, authorizationHeader := none,
          xMcpSessionIdHeader := none,
          xForwardedForHeader := some " 1.2.3.4, 5.6.7.8",
          xRealIpHeader := none }
      = "ip:" ++ jsTrim (beforeFirstComma " 1.2.3.4, 5.6.7.8") :=
  ⟨getRequestIdentifier_resolution_order.2.1
      { sessionIdParam := some "abc", authorizationHeader := none,
        xMcpSessionIdHeader := none, xForwardedForHeader := none,
        xRealIpHeader := none } "abc" rfl (by decide),
   getRequestIdentifier_resolution_order.2.2.1
      { sessionIdParam := none, authorizationHeader := some "Bearer session:xyz",
        xMcpSessionIdHeader := none, xForwardedForHeader := none,
        xRealIpHeader := none } "Bearer session:xyz" rfl rfl (by decide),
   getRequestIdentifier_resolution_order.2.2.2
      { sessionIdParam := none, authorizationHeader := none,
        xMcpSessionIdHeader := none,
        xForwardedForHeader := some " 1.2.3.4, 5.6.7.8",
        xRealIpHeader := none } " 1.2.3.4, 5.6.7.8" rfl rfl rfl (by decide)⟩

/-! ## Claim theorems: ethical conflict check -/

/-- C4: the initial pair of searches (contacts and matters) of the
ethical conflict check is joined all-or-nothing: if the contact
search fails the whole operation fails with that error, if the matter
search fails the whole operation fails with that error, and a report
is produced only when both searches succeeded — no partial report is
built from a surviving search. -/
theorem performEthicalConflictCheck_all_or_nothing :
    (∀ (q : String) (mR : Except String (List ClioMatter)) aR d (e : String),
      performEthicalConflictCheck q (Except.error e) mR aR d = Except.error e) ∧
    (∀ (q : String) (cs : List ClioContact) aR d (e : String),
      performEthicalConflictCheck q (Except.ok cs) (Except.error e) aR d
        = Except.error e) ∧
    (∀ (q : String) cR mR aR d (r : ConflictCheckResult),
      performEthicalConflictCheck q cR mR aR d = Except.ok r →
      (∃ cs, cR = Except.ok cs) ∧ (∃ ms, mR = Except.ok ms)) := by
  refine ⟨fun q mR aR d e => rfl, fun q cs aR d e => rfl, fun q cR mR aR d r h => ?_⟩
  cases cR with
  | error e => exact absurd h (by simp [performEthicalConflictCheck])
  | ok cs =>
    cases mR with
    | error e => exact absurd h (by simp [performEthicalConflictCheck])
    | ok ms => exact ⟨⟨cs, rfl⟩, ⟨ms, rfl⟩⟩

/-- C4 witness: a failing contact search and a failing matter search
each abort a concrete check with their own error, and a concrete
successful check certifies both searches succeeded. -/
theorem performEthicalConflictCheck_all_or_nothing_witness :
    performEthicalConflictCheck "Jane Smith" (Except.error "boom") (Except.ok [])
        (Except.ok []) (fun _ => Except.error "x") = Except.error "boom" ∧
    performEthicalConflictCheck "Jane Smith" (Except.ok []) (Except.error "down")
        (Except.ok []) (fun _ => Except.error "x") = Except.error "down" ∧
    ((∃ cs, (Except.ok [] : Except String (List ClioContact)) = Except.ok cs) ∧
     (∃ ms, (Except.ok [] : Except String (List ClioMatter)) = Except.ok ms)) :=
  ⟨performEthicalConflictCheck_all_or_nothing.1 "Jane Smith" (Except.ok [])
      (Except.ok []) (fun _ => Except.error "x") "boom",
   performEthicalConflictCheck_all_or_nothing.2.1 "Jane Smith" []
      (Except.ok []) (fun _ => Except.error "x") "down",
   performEthicalConflictCheck_all_or_nothing.2.2 "Jane Smith" (Except.ok [])
      (Except.ok []) (Except.ok []) (fun _ => Except.error "x")
      { search_query := "Jane Smith", direct_matches := [],
        related_party_matches := [], closed_matter_history := [] } rfl⟩

/-! ## Claim theorems: matter intelligence brief renderer -/

/-- C7 counterexample: on a brief whose three sections are all empty,
the renderer emits placeholder lines for Recent Activity and Pending
Tasks, but the Case Metadata section renders as its bare heading with
no placeholder line at all — the output ends right after
`## Case Metadata`.  This refutes the claim that every one of the
three sections renders an explicit placeholder line when its data is
empty. -/
theorem formatBrief_caseMetadata_no_placeholder_cx :
    formatIntelligenceBriefAsMarkdown emptyBriefResult
      = "# Matter Intelligence Brief\n\n**Matter:** 2024-002\n\n---\n\n## Recent Activity\n\n*No recent file notes found.*\n\n## Pending Tasks\n\n*No upcoming calendar entries found.*\n\n## Case Metadata\n\n" ∧
    formatIntelligenceBriefAsMarkdown emptyBriefResult
      = "# Matter Intelligence Brief\n\n**Matter:** 2024-002\n\n---\n\n## Recent Activity\n\n*No recent file notes found.*\n\n## Pending Tasks\n\n*No upcoming calendar entries found.*\n\n"
        ++ "## Case Metadata\n\n" :=
  ⟨rfl, rfl⟩

/-- C7 (amended): the brief is a fixed-structure document whose
Recent Activity and Pending Tasks sections render an explicit
placeholder line when their data is empty, while the Case Metadata
section always renders its heading but, when the custom fields and
related contacts are both empty, renders nothing beneath it (its two
subsections are omitted rather than replaced by a placeholder). -/
theorem formatBrief_empty_sections (r : MatterIntelligenceBriefResult)
    (h1 : r.recent_activity = []) (h2 : r.pending_tasks = [])
    (h3 : r.case_metadata.custom_fields = [])
    (h4 : r.case_metadata.related_contacts = []) :
    formatIntelligenceBriefAsMarkdown r
      = briefHeader r.matter
        ++ "## Recent Activity\n\n*No recent file notes found.*\n\n"
        ++ "## Pending Tasks\n\n*No upcoming calendar entries found.*\n\n"
        ++ "## Case Metadata\n\n" := by
  rw [formatIntelligenceBriefAsMarkdown, recentActivitySection, pendingTasksSection,
    caseMetadataSection, h1, h2, h3, h4]
  simp [String.append_assoc]

/-- C7 witness: the amended statement instantiated on the concrete
all-empty brief result. -/
theorem formatBrief_empty_sections_witness :
    formatIntelligenceBriefAsMarkdown emptyBriefResult
      = briefHeader emptyBriefResult.matter
        ++ "## Recent Activity\n\n*No recent file notes found.*\n\n"
        ++ "## Pending Tasks\n\n*No upcoming calendar entries found.*\n\n"
        ++ "## Case Metadata\n\n" :=
  formatBrief_empty_sections emptyBriefResult rfl rfl rfl rfl

theorem length_dropWhile_le {α : Type} (p : α → Bool) (l : List α) :
    (l.dropWhile p).length ≤ l.length := by
  induction l with
  | nil => simp
  | cons c rest ih =>
    rw [List.dropWhile_cons]
    by_cases h : p c
    · simp only [h, if_true]
      exact le_trans ih (Nat.le_succ _)
    · simp [h]

theorem jsTrim_length_le (s : String) : (jsTrim s).length ≤ s.length := by
  show (((s.data.dropWhile asciiWhitespace).reverse.dropWhile asciiWhitespace).reverse).length
    ≤ s.data.length
  rw [List.length_reverse]
  calc ((s.data.dropWhile asciiWhitespace).reverse.dropWhile asciiWhitespace).length
      ≤ (s.data.dropWhile asciiWhitespace).reverse.length :=
        length_dropWhile_le _ _
    _ = (s.data.dropWhile asciiWhitespace).length := List.length_reverse _
    _ ≤ s.data.length := length_dropWhile_le _ _

/-! ## Claim theorems: vagueness classifier -/

/-- C8: the vagueness classifier of the audit flags a description as vague
exactly when it is empty/blank, or its trimmed length is below the
fixed 15-character threshold, or it matches one of the fixed
case-insensitive low-information patterns; in particular `"Call"` is
vague, every 10-character description is vague, `"Drafted Motion to
Dismiss defendant\x27s counterclaim"` is not vague, and the empty string
is vague with reason `"Empty description"`. -/
theorem isVagueDescription_spec :
    (∀ s : String, isVagueDescription s = true ↔
      (s = "" ∨ (jsTrim s).length = 0 ∨ (jsTrim s).length < 15
        ∨ matchesVaguePattern (jsTrim s) = true)) ∧
    isVagueDescription "Call" = true ∧
    (∀ s : String, s.length = 10 → isVagueDescription s = true) ∧
    isVagueDescription "Drafted Motion to Dismiss defendant\x27s counterclaim" = false ∧
    isVagueDescription "" = true ∧
    getVagueReason "" = "Empty description" := by
  refine ⟨fun s => ?_, by decide, fun s h => ?_, by decide, by decide, by decide⟩
  · rw [isVagueDescription]
    by_cases h1 : s = ""
    · simp [h1]
    · by_cases h2 : (jsTrim s).length = 0
      · simp [h1, h2]
      · by_cases h3 : (jsTrim s).length < 15
        · simp [h1, h2, h3]
        · simp [h1, h2, h3]
  · rw [isVagueDescription]
    have hle := jsTrim_length_le s
    rw [h] at hle
    have h15 : (jsTrim s).length < 15 := by omega
    by_cases h1 : s = ""
    · simp [h1]
    · by_cases h2 : (jsTrim s).length = 0
      · simp [h1, h2]
      · simp [h1, h2, h15]

/-- C8 witness: the universally quantified part instantiated on a
concrete 10-character description. -/
theorem isVagueDescription_spec_witness :
    isVagueDescription "ab cd ef g" = true :=
  isVagueDescription_spec.2.2.1 "ab cd ef g" (by decide)

theorem auditStep_total (as : List ClioActivity) (init : AuditResult) :
    (as.foldl auditStep init).total_billable_amount
      = init.total_billable_amount + (as.map billableAmountOf).sum := by
  induction as generalizing init with
  | nil => simp
  | cons a rest ih =>
    simp only [List.foldl_cons, List.map_cons, List.sum_cons]
    rw [ih]
    simp [auditStep, add_assoc]

/-! ## Claim theorems: unbilled activity audit amounts -/

/-- C9 counterexample: an activity with a provided billable amount of
exactly 0 (and time 2 at rate 100) is not billed at its provided
amount: JavaScript `||` treats the provided 0 as absent and the audit
computes 200 for it.  This refutes the claim that the billable amount
is the provided amount whenever one is given. -/
theorem billableAmount_zero_provided_cx :
    zeroAmountActivity.billable_amount = some 0 ∧
    billableAmountOf zeroAmountActivity = 200 ∧
    (200 : ℚ) ≠ 0 :=
  ⟨rfl, by norm_num [billableAmountOf, zeroAmountActivity, qTruthy], by norm_num⟩

/-- C9 (amended): the billable amount for an activity is its provided
amount when one is given and nonzero, else time-spent × rate when
both are given and nonzero, else zero; the reported
`total_billable_amount` is the exact sum of these per-activity
amounts; and for activities with provided amounts
[875, 500, 375, 1000, 125] the total is exactly 2875. -/
theorem auditTotal_spec :
    (∀ (a : ClioActivity) (x : ℚ), a.billable_amount = some x → x ≠ 0 →
      billableAmountOf a = x) ∧
    (∀ (a : ClioActivity) (t r : ℚ), qTruthy a.billable_amount = false →
      a.time_spent = some t → a.rate = some r → t ≠ 0 → r ≠ 0 →
      billableAmountOf a = t * r) ∧
    (∀ a : ClioActivity, qTruthy a.billable_amount = false →
      (qTruthy a.time_spent && qTruthy a.rate) = false → billableAmountOf a = 0) ∧
    (∀ (mId : String) (as : List ClioActivity),
      (auditUnbilledActivitiesCore mId as).total_billable_amount
        = (as.map billableAmountOf).sum) ∧
    (auditUnbilledActivitiesCore "12345" demoActivities).total_billable_amount = 2875 := by
  refine ⟨?_, ?_, ?_, ?_, ?_⟩
  · intro a x hx hne
    rw [billableAmountOf, hx]
    simp [qTruthy, hne]
  · intro a t r h0 ht hr htne hrne
    rw [billableAmountOf, ht, hr, h0]
    simp [qTruthy, htne, hrne]
  · intro a h0 h1
    rw [billableAmountOf, h0, h1]
    simp
  · intro mId as
    rw [auditUnbilledActivitiesCore, auditStep_total]
    simp
  · rw [auditUnbilledActivitiesCore, auditStep_total]
    norm_num [demoActivities, billableAmountOf, qTruthy]

/-- C9 witness: the amended per-activity rules instantiated on
concrete activities (provided nonzero amount; absent amount with time
and rate). -/
theorem auditTotal_spec_witness :
    billableAmountOf
        { id := "w1", description := none, note := none, subject := none,
          date := none, created_at := none,
          time_spent := none, rate := none, billable_amount := some 875 } = 875 ∧
    billableAmountOf
        { id := "w2", description := none, note := none, subject := none,
          date := none, created_at := none,
          time_spent := some 2, rate := some 100, billable_amount := none } = 2 * 100 :=
  ⟨auditTotal_spec.1 _ 875 rfl (by norm_num),
   auditTotal_spec.2.1 _ 2 100 rfl rfl rfl (by norm_num) (by norm_num)⟩
